import Mathlib

/-!
Verification of the scoring, ranking and chart-preparation core of the
FC Groningen scouting dashboard (`src/scouting_app_Bram.py` and
`src/scouting_streamlit.py`).

Modelling conventions:
* numeric cells are rationals; a pandas `NaN` / missing value is `none`;
* a data-frame row is an association list from column name to cell value,
  looked up with `List.lookup` (first binding wins, as a pandas row has
  one value per column);
* `df[cols].mean(axis=1)` skips `NaN` values (pandas default
  `skipna=True`) and yields `NaN` on an all-`NaN` row, hence
  `Option`-valued means below;
* a pandas comparison `x >= t` on a `NaN` cell is `False`, hence the
  threshold test on a missing score fails below.
-/

namespace Scouting

/-- `PHYSICAL_METRICS` from `scouting_app_Bram.py` lines 65-70. -/
def PHYSICAL_METRICS : List String :=
  ["total_distance_p90_percentile",
   "running_distance_p90_percentile",
   "hsr_distance_p90_percentile",
   "sprint_distance_p90_percentile"]

/-- `ATTACK_METRICS` from `scouting_app_Bram.py` lines 72-79. -/
def ATTACK_METRICS : List String :=
  ["bypass_midfield_defense_tip_p30_percentile",
   "bypass_opponents_rec_tip_p30_percentile",
   "off_ball_runs_total_tip_p30_percentile",
   "involvement_chances_tip_p30_percentile",
   "ball_loss_removed_teammates_tip_p30_percentile",
   "ball_loss_added_opponents_tip_p30_percentile"]

/-- `DEFENSE_METRICS` from `scouting_app_Bram.py` lines 81-87. -/
def DEFENSE_METRICS : List String :=
  ["ball_win_removed_opponents_otip_p30_percentile",
   "ball_win_added_teammates_otip_p30_percentile",
   "ground_duels_won_percentage_percentile",
   "aerial_duels_won_percentage_percentile",
   "press_total_stop_danger_otip_p30_percentile"]

/-- A raw Supabase cell as it arrives in `load_data_from_supabase`:
a number, a string, or a null. -/
inductive Cell where
  | num (q : ℚ)
  | str (s : String)
  | null
deriving DecidableEq

/-- One cell of `pd.to_numeric(df[c], errors="coerce")`
(`scouting_app_Bram.py` lines 644-647): a number stays itself, a null
stays missing, and a string is handed to the numeric parser `parse`;
with `errors="coerce"` an unparseable string becomes missing (`none`) —
never `0`, and never an exception (the function is total). -/
def toNumericCell (parse : String → Option ℚ) : Cell → Option ℚ
  | .num q => some q
  | .str s => parse s
  | .null => none

/-- A row after numeric coercion: column name ↦ value or missing. -/
abbrev NumRow := List (String × Option ℚ)

/-- The per-row effect of the coercion loop of
`scouting_app_Bram.py` lines 645-647. -/
def coerceRow (parse : String → Option ℚ) (cells : List (String × Cell)) : NumRow :=
  cells.map (fun kc => (kc.1, toNumericCell parse kc.2))

/-- Value of column `k` in a row: missing when the column is absent or
holds `NaN`. -/
def getVal (row : NumRow) (k : String) : Option ℚ :=
  (row.lookup k).join

/-- Arithmetic mean of a list of rationals, `none` on the empty list
(the `NaN` that pandas produces for an all-missing mean). -/
def meanOpt (xs : List ℚ) : Option ℚ :=
  if xs.isEmpty then none else some (xs.sum / xs.length)

/-- Row-wise `df[ms].mean(axis=1)` (`scouting_app_Bram.py` lines
650-652): the mean of the values present in the row for the metric list
`ms`, skipping missing values, `none` when every metric is missing. -/
def categoryScore (row : NumRow) (ms : List String) : Option ℚ :=
  meanOpt (ms.filterMap (fun m => getVal row m))

/-- Row-wise `df[["physical", "attack", "defense"]].mean(axis=1)`
(`scouting_app_Bram.py` line 653): mean of the defined category scores,
`none` when all three are undefined. -/
def overallOf (p a d : Option ℚ) : Option ℚ :=
  meanOpt ([p, a, d].filterMap id)

/-- A scored player row: the aggregate columns added by
`load_data_from_supabase` plus a player identity. -/
structure ScoredRow where
  pid : ℕ
  physical : Option ℚ
  attack : Option ℚ
  defense : Option ℚ
  total : Option ℚ
deriving DecidableEq

/-- Lines 650-653 of `scouting_app_Bram.py`: the aggregate columns are
always recomputed from the raw metric cells of the row (any stored
aggregate column is overwritten). -/
def loadScores (pid : ℕ) (row : NumRow) : ScoredRow :=
  { pid := pid
    physical := categoryScore row PHYSICAL_METRICS
    attack := categoryScore row ATTACK_METRICS
    defense := categoryScore row DEFENSE_METRICS
    total := overallOf (categoryScore row PHYSICAL_METRICS)
      (categoryScore row ATTACK_METRICS) (categoryScore row DEFENSE_METRICS) }

/-! ### Helper lemmas on scoring -/

theorem lookup_eq_none_of_not_mem_keys {α : Type} {l : List (String × α)} {k : String}
    (h : k ∉ l.map Prod.fst) : l.lookup k = none := by
  induction l with
  | nil => rfl
  | cons p l ih =>
    simp only [List.map_cons, List.mem_cons, not_or] at h
    rw [List.lookup_cons]
    have : (k == p.1) = false := by
      simp only [beq_eq_false_iff_ne, ne_eq]
      exact fun hk => h.1 (by simp [hk])
    rw [this]
    exact ih h.2

theorem coerceRow_keys (parse : String → Option ℚ) (cells : List (String × Cell)) :
    (coerceRow parse cells).map Prod.fst = cells.map Prod.fst := by
  induction cells with
  | nil => rfl
  | cons p l ih => simp only [coerceRow, List.map_cons] at ih ⊢; simp [ih]

theorem getVal_cons (k : String) (v : Option ℚ) (row : NumRow) (m : String) :
    getVal ((k, v) :: row) m = if m = k then v else getVal row m := by
  by_cases h : m = k
  · simp [getVal, List.lookup_cons, h]
  · have hb : (m == k) = false := beq_eq_false_iff_ne.mpr h
    simp [getVal, List.lookup_cons, hb, h]

theorem filterMap_getVal_congr (row₁ row₂ : NumRow) (ms : List String)
    (h : ∀ m ∈ ms, getVal row₁ m = getVal row₂ m) :
    ms.filterMap (fun m => getVal row₁ m) = ms.filterMap (fun m => getVal row₂ m) := by
  induction ms with
  | nil => rfl
  | cons m ms ih =>
    simp only [List.filterMap_cons]
    rw [h m (by simp), ih (fun x hx => h x (by simp [hx]))]

theorem filterMap_getVal_erase (row : NumRow) (ms : List String) (m : String)
    (hm : getVal row m = none) :
    (ms.erase m).filterMap (fun x => getVal row x) = ms.filterMap (fun x => getVal row x) := by
  induction ms with
  | nil => rfl
  | cons a ms ih =>
    by_cases ha : a = m
    · subst ha
      rw [List.erase_cons_head, List.filterMap_cons, hm]
    · rw [List.erase_cons_tail (by simp [ha]), List.filterMap_cons, List.filterMap_cons]
      cases hv : getVal row a <;> simp [ih]

/-- The property claim C3 asserts of one category score `s` of a row. -/
def CategoryMeanSpec (s : Option ℚ) (row : NumRow) (ms : List String) : Prop :=
  (s = none ↔ ∀ m ∈ ms, getVal row m = none) ∧
  (∀ q, s = some q →
    ms.filterMap (fun m => getVal row m) ≠ [] ∧
    q = (ms.filterMap (fun m => getVal row m)).sum /
        (ms.filterMap (fun m => getVal row m)).length) ∧
  (∀ m ∈ ms, getVal row m = none → s = categoryScore row (ms.erase m))

theorem meanOpt_eq_none {xs : List ℚ} : meanOpt xs = none ↔ xs = [] := by
  cases xs <;> simp [meanOpt]

theorem categoryScore_meets_spec (row : NumRow) (ms : List String) :
    CategoryMeanSpec (categoryScore row ms) row ms := by
  refine ⟨?_, ?_, ?_⟩
  · rw [categoryScore, meanOpt_eq_none, List.filterMap_eq_nil_iff]
  · intro q h
    rw [categoryScore, meanOpt] at h
    by_cases he : (ms.filterMap (fun m => getVal row m)).isEmpty
    · rw [if_pos he] at h; exact absurd h (by simp)
    · rw [if_neg he] at h
      refine ⟨by simpa [List.isEmpty_iff] using he, ?_⟩
      exact (Option.some_inj.mp h).symm
  · intro m _ hnone
    rw [categoryScore, categoryScore, filterMap_getVal_erase row ms m hnone]

/-- The property claim C4 asserts of the overall score `t` given the
three category scores. -/
def OverallMeanSpec (t p a d : Option ℚ) : Prop :=
  (t = none ↔ p = none ∧ a = none ∧ d = none) ∧
  (∀ q, t = some q →
    [p, a, d].filterMap id ≠ [] ∧
    q = ([p, a, d].filterMap id).sum / ([p, a, d].filterMap id).length)

theorem overallOf_meets_spec (p a d : Option ℚ) :
    OverallMeanSpec (overallOf p a d) p a d := by
  cases p <;> cases a <;> cases d <;>
    simp [OverallMeanSpec, overallOf, meanOpt] <;>
    intro q h <;> simp [h.symm]

/-- Claim C3: for every player row and each of the three categories
(Physical, Attack, Defense), the category score computed at load time is
the arithmetic mean of exactly the metric values present in the row for
that category's metric list — a missing metric is excluded from both
numerator and denominator (dropping it from the list leaves the score
unchanged, so it is never treated as 0) — and the score is undefined
iff every metric of the category's list is missing from the row. -/
theorem c3_category_mean (pid : ℕ) (row : NumRow) :
    CategoryMeanSpec (loadScores pid row).physical row PHYSICAL_METRICS ∧
    CategoryMeanSpec (loadScores pid row).attack row ATTACK_METRICS ∧
    CategoryMeanSpec (loadScores pid row).defense row DEFENSE_METRICS :=
  ⟨categoryScore_meets_spec row PHYSICAL_METRICS,
   categoryScore_meets_spec row ATTACK_METRICS,
   categoryScore_meets_spec row DEFENSE_METRICS⟩

/-- The end-to-end scenario row of spec section 8: one physical metric at
80, one attack metric at 40, one defense metric at 20, everything else
missing. -/
def wRow : NumRow :=
  [("total_distance_p90_percentile", some 80),
   ("bypass_midfield_defense_tip_p30_percentile", some 40),
   ("ball_win_added_teammates_otip_p30_percentile", some 20)]

theorem c3_category_mean_witness :
    (loadScores 1 wRow).physical = some 80 ∧
    CategoryMeanSpec (loadScores 1 wRow).physical wRow PHYSICAL_METRICS :=
  ⟨by
    show categoryScore wRow PHYSICAL_METRICS = some 80
    rw [categoryScore,
      show PHYSICAL_METRICS.filterMap (fun m => getVal wRow m) = [80] from by decide]
    norm_num [meanOpt],
   (c3_category_mean 1 wRow).1⟩

/-- Claim C4: for every player row, the overall score computed at load
time is the arithmetic mean of exactly the defined category scores, and
it is undefined iff all three category scores are undefined. -/
theorem c4_overall_mean (pid : ℕ) (row : NumRow) :
    OverallMeanSpec (loadScores pid row).total (loadScores pid row).physical
      (loadScores pid row).attack (loadScores pid row).defense :=
  overallOf_meets_spec _ _ _

theorem c4_overall_mean_witness :
    (loadScores 1 wRow).total = some (140 / 3) ∧
    OverallMeanSpec (loadScores 1 wRow).total (loadScores 1 wRow).physical
      (loadScores 1 wRow).attack (loadScores 1 wRow).defense :=
  ⟨by
    have h1 : categoryScore wRow PHYSICAL_METRICS = some 80 := by
      rw [categoryScore,
        show PHYSICAL_METRICS.filterMap (fun m => getVal wRow m) = [80] from by decide]
      norm_num [meanOpt]
    have h2 : categoryScore wRow ATTACK_METRICS = some 40 := by
      rw [categoryScore,
        show ATTACK_METRICS.filterMap (fun m => getVal wRow m) = [40] from by decide]
      norm_num [meanOpt]
    have h3 : categoryScore wRow DEFENSE_METRICS = some 20 := by
      rw [categoryScore,
        show DEFENSE_METRICS.filterMap (fun m => getVal wRow m) = [20] from by decide]
      norm_num [meanOpt]
    show overallOf (categoryScore wRow PHYSICAL_METRICS)
      (categoryScore wRow ATTACK_METRICS) (categoryScore wRow DEFENSE_METRICS)
      = some (140 / 3)
    rw [h1, h2, h3, overallOf,
      show ([some (80 : ℚ), some 40, some 20].filterMap id) = [80, 40, 20] from by decide]
    norm_num [meanOpt],
   c4_overall_mean 1 wRow⟩

/-- Claim C10: a raw metric cell whose string value the numeric parser
cannot handle is coerced by `pd.to_numeric(..., errors="coerce")` to a
missing value — never to `0`, and never an error (`toNumericCell` is a
total function) — and the category and overall scores of the row are
then exactly those of the row with that metric column absent. -/
theorem c10_coerce_missing (parse : String → Option ℚ) (s k : String)
    (cells : List (String × Cell)) (pid : ℕ)
    (hp : parse s = none) (hk : k ∉ cells.map Prod.fst) :
    toNumericCell parse (Cell.str s) = none ∧
    toNumericCell parse (Cell.str s) ≠ some 0 ∧
    loadScores pid (coerceRow parse ((k, Cell.str s) :: cells)) =
      loadScores pid (coerceRow parse cells) := by
  refine ⟨by simp [toNumericCell, hp], by simp [toNumericCell, hp], ?_⟩
  have hgv : ∀ m, getVal (coerceRow parse ((k, Cell.str s) :: cells)) m
      = getVal (coerceRow parse cells) m := by
    intro m
    have hc : coerceRow parse ((k, Cell.str s) :: cells)
        = (k, none) :: coerceRow parse cells := by
      simp [coerceRow, toNumericCell, hp]
    rw [hc, getVal_cons]
    by_cases hm : m = k
    · rw [if_pos hm, hm]
      have h2 : (coerceRow parse cells).lookup k = none := by
        apply lookup_eq_none_of_not_mem_keys
        rw [coerceRow_keys]
        exact hk
      simp [getVal, h2]
    · rw [if_neg hm]
  simp only [loadScores, categoryScore]
  rw [filterMap_getVal_congr _ _ PHYSICAL_METRICS (fun m _ => hgv m),
    filterMap_getVal_congr _ _ ATTACK_METRICS (fun m _ => hgv m),
    filterMap_getVal_congr _ _ DEFENSE_METRICS (fun m _ => hgv m)]

theorem c10_coerce_missing_witness :
    ((fun _ => (none : Option ℚ)) "n/a" = none) ∧
    "total_distance_p90_percentile" ∉
      ([("running_distance_p90_percentile", Cell.num 80)].map Prod.fst) ∧
    loadScores 2 (coerceRow (fun _ => none)
        [("total_distance_p90_percentile", Cell.str "n/a"),
         ("running_distance_p90_percentile", Cell.num 80)]) =
      loadScores 2 (coerceRow (fun _ => none)
        [("running_distance_p90_percentile", Cell.num 80)]) :=
  ⟨rfl, by decide, (c10_coerce_missing (fun _ => none) "n/a"
      "total_distance_p90_percentile"
      [("running_distance_p90_percentile", Cell.num 80)] 2 rfl (by decide)).2.2⟩

/-! ### Ranking pipeline -/

/-- The sort key of `df_f.sort_values("total", ascending=False,
na_position="last")` as a Bool-valued total preorder: higher total
first, missing totals after every defined total. -/
def leTotalB (a b : ScoredRow) : Bool :=
  match a.total, b.total with
  | some x, some y => decide (y ≤ x)
  | some _, none => true
  | none, some _ => false
  | none, none => true

/-- The same preorder as a `Prop`-valued relation. -/
def scoredLE (a b : ScoredRow) : Prop := leTotalB a b = true

instance (a b : ScoredRow) : Decidable (scoredLE a b) :=
  inferInstanceAs (Decidable (leTotalB a b = true))

instance : IsTotal ScoredRow scoredLE :=
  ⟨fun a b => by
    unfold scoredLE leTotalB
    rcases a.total with _ | x <;> rcases b.total with _ | y <;> simp
    exact le_total y x⟩

instance : IsTrans ScoredRow scoredLE :=
  ⟨fun a b c hab hbc => by
    obtain ⟨a1, a2, a3, a4, ta⟩ := a
    obtain ⟨b1, b2, b3, b4, tb⟩ := b
    obtain ⟨c1, c2, c3, c4, tc⟩ := c
    unfold scoredLE leTotalB at hab hbc ⊢
    rcases ta with _ | x <;> rcases tb with _ | y <;> rcases tc with _ | z <;>
      simp_all <;> exact le_trans hbc hab⟩

/-- `df_f.sort_values("total", ascending=False, na_position="last")`
(`scouting_app_Bram.py` line 1013, `scouting_streamlit.py` line 721):
a sort by descending total with the `NaN`-total rows appended last in
original order.  The call uses the default `kind="quicksort"` (numpy
introsort), which the pandas documentation states is not a stable
algorithm, so the relative order of rows with equal totals is
implementation-defined; this embedding fixes one admissible output —
the stable insertion sort — and the rank properties proved below use
only sortedness, membership and length, which every admissible output
shares, never the tie order this realisation happens to pick. -/
def sortScored (rows : List ScoredRow) : List ScoredRow :=
  List.insertionSort scoredLE rows

/-- A scored row together with its `original_rank` column. -/
structure RankedRow where
  rank : ℕ
  score : ScoredRow
deriving DecidableEq

/-- `df_f["original_rank"] = range(1, len(df_f) + 1)` applied after the
sort (`scouting_app_Bram.py` line 1014): position `i` (0-based) of the
sorted collection receives rank `k + i`. -/
def assignRanks : ℕ → List ScoredRow → List RankedRow
  | _, [] => []
  | k, r :: rs => ⟨k, r⟩ :: assignRanks (k + 1) rs

/-- Lines 1013-1014 of `scouting_app_Bram.py`: sort by descending total
(missing last), then assign dense 1-based ranks by sorted position. -/
def rankRows (rows : List ScoredRow) : List RankedRow :=
  assignRanks 1 (sortScored rows)

/-- One conjunct of the pandas threshold filter
`df_top[(df_top["physical"] >= min_physical) & ...]`
(`scouting_app_Bram.py` lines 1018-1022): a defined score passes iff it
is at least the threshold; a missing score is a `NaN`, and a pandas
comparison `NaN >= t` is `False` for every `t` — 0 included. -/
def passesThreshold (v : Option ℚ) (t : ℚ) : Bool :=
  match v with
  | some x => decide (t ≤ x)
  | none => false

/-- Lines 1015-1022 of `scouting_app_Bram.py` (725-732 of
`scouting_streamlit.py`): take the first `n` ranked rows
(`df_top = df_f.head(int(top_n))`), then keep only the rows whose three
category scores pass the thresholds; the `original_rank` values are not
recomputed. -/
def filterTopNThenThreshold (ranked : List RankedRow) (n : ℕ)
    (minP minA minD : ℚ) : List RankedRow :=
  (ranked.take n).filter (fun r =>
    passesThreshold r.score.physical minP &&
    passesThreshold r.score.attack minA &&
    passesThreshold r.score.defense minD)

/-! ### Helper lemmas on ranking -/

theorem assignRanks_map_rank (l : List ScoredRow) : ∀ (k : ℕ),
    (assignRanks k l).map RankedRow.rank = List.range' k l.length := by
  induction l with
  | nil => intro k; rfl
  | cons r rs ih =>
    intro k
    simp [assignRanks, List.range'_succ, ih]

theorem sortScored_length (rows : List ScoredRow) :
    (sortScored rows).length = rows.length :=
  (List.perm_insertionSort scoredLE rows).length_eq

theorem rankRows_map_rank (rows : List ScoredRow) :
    (rankRows rows).map RankedRow.rank = List.range' 1 rows.length := by
  rw [rankRows, assignRanks_map_rank, sortScored_length]

theorem take_range1 : ∀ (n len s : ℕ),
    (List.range' s len).take n = List.range' s (min n len) := by
  intro n
  induction n with
  | zero => intro len s; simp
  | succ n ih =>
    intro len s
    cases len with
    | zero => simp
    | succ len =>
      rw [List.range'_succ, List.take_succ_cons, ih, Nat.succ_min_succ,
        List.range'_succ]

theorem passesThreshold_mono {v : Option ℚ} {t t2 : ℚ} (h : t ≤ t2)
    (hv : passesThreshold v t2 = true) : passesThreshold v t = true := by
  cases v with
  | none => simp [passesThreshold] at hv
  | some x =>
    simp only [passesThreshold, decide_eq_true_eq] at hv ⊢
    exact le_trans h hv

/-- The two tied rows of the C2 divergence: equal overall score 50,
distinct players. -/
def c2RowA : ScoredRow :=
  { pid := 1, physical := some 50, attack := some 50, defense := some 50,
    total := some 50 }

/-- The second tied row for C2. -/
def c2RowB : ScoredRow :=
  { pid := 2, physical := some 50, attack := some 50, defense := some 50,
    total := some 50 }

/-- Claim C2: the claim's "ties in overall score are broken by original
input order (stable sort)" is the spec's evident intent — it is what
makes rank assignment reproducible — but the code sorts with
`sort_values`' default `kind="quicksort"` (numpy introsort), which the
pandas documentation states is not a stable algorithm; a stable tie
order would need `kind="mergesort"` or `kind="stable"`.  The divergence
at two tied rows: both orders of `[c2RowA, c2RowB]` satisfy everything
the unstable sort contract guarantees — each is a permutation of the
input, descending-sorted by total (`scoredLE` pairwise, undefined
totals last) — yet the two admissible outputs assign opposite ranks to
the tied rows, so the code does not guarantee the claimed tie order.
Dense 1-based rank assignment itself is positional and holds either
way, as the equal rank images show. -/
theorem c2_unstable_kind_bug :
    c2RowA ≠ c2RowB ∧
    c2RowA.total = c2RowB.total ∧
    scoredLE c2RowA c2RowB ∧ scoredLE c2RowB c2RowA ∧
    List.Pairwise scoredLE [c2RowA, c2RowB] ∧
    List.Pairwise scoredLE [c2RowB, c2RowA] ∧
    List.Perm [c2RowB, c2RowA] [c2RowA, c2RowB] ∧
    (assignRanks 1 [c2RowA, c2RowB]).map RankedRow.rank
      = (assignRanks 1 [c2RowB, c2RowA]).map RankedRow.rank ∧
    assignRanks 1 [c2RowA, c2RowB] ≠ assignRanks 1 [c2RowB, c2RowA] :=
  ⟨by decide, rfl, by decide, by decide, by decide, by decide,
   List.Perm.swap c2RowA c2RowB [], rfl, by decide⟩

/-- Claim C1 (amended): with all three thresholds 0, the filter keeps
exactly the rows of the top-`min n |ranked|` slice whose category scores
are all defined (and nonnegative, as percentile data is); in particular
when every row of the slice has all three category scores defined the
visible ranks are exactly `{1, …, min n |ranked|}`.  A row with an
undefined category score is dropped even at threshold 0 — see the
counterexample. -/
theorem c1_zero_threshold_ranks (rows : List ScoredRow) (n : ℕ)
    (h : ∀ r ∈ (rankRows rows).take n,
      (∃ x, r.score.physical = some x ∧ 0 ≤ x) ∧
      (∃ x, r.score.attack = some x ∧ 0 ≤ x) ∧
      (∃ x, r.score.defense = some x ∧ 0 ≤ x)) :
    (filterTopNThenThreshold (rankRows rows) n 0 0 0).map RankedRow.rank
      = List.range' 1 (min n rows.length) := by
  have hfil : filterTopNThenThreshold (rankRows rows) n 0 0 0
      = (rankRows rows).take n := by
    rw [filterTopNThenThreshold]
    apply List.filter_eq_self.mpr
    intro r hr
    obtain ⟨⟨x, hx, hx0⟩, ⟨y, hy, hy0⟩, ⟨z, hz, hz0⟩⟩ := h r hr
    simp [passesThreshold, hx, hy, hz, hx0, hy0, hz0]
  rw [hfil, List.map_take, rankRows_map_rank, take_range1]

/-- A fully scored row used in witnesses. -/
def w1Row : ScoredRow :=
  { pid := 1, physical := some 60, attack := some 50, defense := some 40,
    total := some 50 }

theorem c1_zero_threshold_ranks_witness :
    (filterTopNThenThreshold (rankRows [w1Row]) 1 0 0 0).map RankedRow.rank
      = List.range' 1 (min 1 [w1Row].length) :=
  c1_zero_threshold_ranks [w1Row] 1 (by
    intro r hr
    have h1 : (rankRows [w1Row]).take 1 = [⟨1, w1Row⟩] := rfl
    rw [h1, List.mem_singleton] at hr
    subst hr
    exact ⟨⟨60, rfl, by norm_num⟩, ⟨50, rfl, by norm_num⟩,
      ⟨40, rfl, by norm_num⟩⟩)

/-- Claim C1 (counterexample): a ranked collection holding one player
whose every metric is missing.  All three category scores are undefined,
so with `n = 1` and all thresholds 0 the pandas filter
(`NaN >= 0` is `False`) drops the row, and the visible ranks are `[]`,
not `{1, …, min 1 1} = {1}` as the claim states. -/
theorem c1_zero_threshold_cex :
    (loadScores 7 []).physical = none ∧
    (filterTopNThenThreshold (rankRows [loadScores 7 []]) 1 0 0 0).map
        RankedRow.rank
      ≠ List.range' 1 (min 1 [loadScores 7 []].length) :=
  ⟨rfl, by decide⟩

/-- Claim C5: each surviving row of `filterTopNThenThreshold` is kept
verbatim — in particular its previously assigned `original_rank` value
is unchanged — and raising any threshold only shrinks the surviving set
(the survivors of the higher thresholds are a sublist of the survivors
of the lower ones, again kept verbatim). -/
theorem c5_threshold_frame (ranked : List RankedRow) (n : ℕ)
    (p a d p2 a2 d2 : ℚ) (hp : p ≤ p2) (ha : a ≤ a2) (hd : d ≤ d2) :
    List.Sublist (filterTopNThenThreshold ranked n p a d) ranked ∧
    (∀ r ∈ filterTopNThenThreshold ranked n p a d, r ∈ ranked) ∧
    List.Sublist (filterTopNThenThreshold ranked n p2 a2 d2)
      (filterTopNThenThreshold ranked n p a d) := by
  have hsub : List.Sublist (filterTopNThenThreshold ranked n p a d) ranked :=
    (List.filter_sublist _).trans (List.take_sublist n ranked)
  refine ⟨hsub, fun r hr => hsub.subset hr, ?_⟩
  rw [filterTopNThenThreshold, filterTopNThenThreshold]
  apply List.monotone_filter_right
  intro r hr
  simp only [Bool.and_eq_true] at hr ⊢
  obtain ⟨⟨h1, h2⟩, h3⟩ := hr
  exact ⟨⟨passesThreshold_mono hp h1, passesThreshold_mono ha h2⟩,
    passesThreshold_mono hd h3⟩

/-- A two-row ranked collection used in the C5 witness. -/
def wRanked : List RankedRow :=
  [⟨1, { pid := 1, physical := some 60, attack := some 50,
         defense := some 40, total := some 50 }⟩,
   ⟨2, { pid := 2, physical := some 30, attack := some 20,
         defense := some 10, total := some 20 }⟩]

theorem c5_threshold_frame_witness :
    ((0 : ℚ) ≤ 35) ∧
    List.Sublist (filterTopNThenThreshold wRanked 2 35 0 0)
      (filterTopNThenThreshold wRanked 2 0 0 0) :=
  ⟨by norm_num,
   (c5_threshold_frame wRanked 2 0 0 0 35 0 0 (by norm_num) le_rfl le_rfl).2.2⟩

/-! ### Streamlit profile catalog -/

/-- `MetricCategory` (`scouting_streamlit.py` lines 351-354). -/
inductive MCat where
  | physical
  | attacking
  | defending
deriving DecidableEq

/-- The category of each entry of the `metrics` dictionary of
`scouting_streamlit.py` (lines 363-391); the Dutch display labels are
not used by any verified property and are omitted. -/
def metricCategories : List (String × MCat) :=
  [("total_distance_p90_percentile", .physical),
   ("running_distance_p90_percentile", .physical),
   ("hsr_distance_p90_percentile", .physical),
   ("sprint_distance_p90_percentile", .physical),
   ("hi_distance_p90_percentile", .physical),
   ("total_minutes_percentile", .physical),
   ("bypass_midfield_defense_tip_p30_percentile", .attacking),
   ("bypass_midfield_defense_pass_tip_p30_percentile", .attacking),
   ("bypass_midfield_defense_dribble_tip_p30_percentile", .attacking),
   ("bypass_opponents_rec_tip_p30_percentile", .attacking),
   ("involvement_chances_tip_p30_percentile", .attacking),
   ("off_ball_runs_total_tip_p30_percentile", .attacking),
   ("ball_win_removed_opponents_otip_p30_percentile", .defending),
   ("ball_win_added_teammates_otip_p30_percentile", .defending),
   ("ground_duels_won_p90_percentile", .defending),
   ("ground_duels_won_percentage_percentile", .defending),
   ("aerial_duels_won_p90_percentile", .defending),
   ("aerial_duels_won_percentage_percentile", .defending),
   ("press_total_count_otip_p30_percentile", .defending),
   ("press_total_stop_danger_otip_p30_percentile", .defending)]

/-- `position_profiles` of `scouting_streamlit.py` (lines 394-413): a
single profile, "DMCM". -/
def positionProfiles : List (String × List String) :=
  [("DMCM",
    ["total_distance_p90_percentile",
     "running_distance_p90_percentile",
     "hi_distance_p90_percentile",
     "total_minutes_percentile",
     "bypass_midfield_defense_pass_tip_p30_percentile",
     "bypass_midfield_defense_dribble_tip_p30_percentile",
     "bypass_opponents_rec_tip_p30_percentile",
     "off_ball_runs_total_tip_p30_percentile",
     "involvement_chances_tip_p30_percentile",
     "ball_win_removed_opponents_otip_p30_percentile",
     "ball_win_added_teammates_otip_p30_percentile",
     "ground_duels_won_p90_percentile",
     "aerial_duels_won_p90_percentile",
     "press_total_count_otip_p30_percentile"])]

/-- `get_metrics_for_profile` (`scouting_streamlit.py` lines 137-155):
the profile's metric keys partitioned by category in list order, keys
unknown to `metrics` skipped; an unknown profile name yields the empty
key list (`position_profiles.get(profile_name, [])`) and hence three
empty categories — no error is raised. -/
def getMetricsForProfile (p : String) :
    List String × List String × List String :=
  let ks := (positionProfiles.lookup p).getD []
  (ks.filter (fun k => decide (metricCategories.lookup k = some .physical)),
   ks.filter (fun k => decide (metricCategories.lookup k = some .attacking)),
   ks.filter (fun k => decide (metricCategories.lookup k = some .defending)))

/-- The text before the first occurrence of `" ("`, on the character
list of a string: `s.split(" (")[0]` keeps everything before the first
separator, or the whole string when the separator never occurs. -/
def splitHeadAux : List Char → List Char
  | [] => []
  | ' ' :: '(' :: _ => []
  | c :: rest => c :: splitHeadAux rest

/-- Lines 1058-1059 of `scouting_streamlit.py`:
`str(player_data.get("position_profile", "")).split(" (")[0]` — an
absent profile field defaults to the empty string. -/
def rawPos (profileField : Option String) : String :=
  ⟨splitHeadAux (profileField.getD "").data⟩

/-- Line 1060 of `scouting_streamlit.py`:
`profile_key = raw_pos if raw_pos in position_profiles else "DMCM"`. -/
def resolveProfileKey (profileField : Option String) : String :=
  if (positionProfiles.lookup (rawPos profileField)).isSome then
    rawPos profileField
  else "DMCM"

/-- Claim C8 (counterexample): for the profile key "XYZ", absent from
the catalog, resolution does not fail with any error —
`create_polarized_bar_chart` silently falls back to the "DMCM" profile
(also when the profile field is absent from the row), and
`get_metrics_for_profile` silently returns three empty category lists.
No `UnresolvedProfileError` exists anywhere in the code. -/
theorem c8_profile_fallback_cex :
    positionProfiles.lookup "XYZ" = none ∧
    resolveProfileKey (some "XYZ") = "DMCM" ∧
    resolveProfileKey none = "DMCM" ∧
    getMetricsForProfile "XYZ" = ([], [], []) :=
  ⟨rfl, by decide, by decide, by decide⟩

/-- Claim C8 (amended): resolving a player row's profile never fails:
when the (split) profile key is unknown to `position_profiles` — in
particular when the field is absent, as it then defaults to `""` — the
chart falls back to the "DMCM" profile; a known key resolves to itself;
and `get_metrics_for_profile` maps an unknown profile name to three
empty category lists instead of raising. -/
theorem c8_profile_fallback :
    (∀ pf : Option String, positionProfiles.lookup (rawPos pf) = none →
      resolveProfileKey pf = "DMCM") ∧
    (∀ (pf : Option String) (ks : List String),
      positionProfiles.lookup (rawPos pf) = some ks →
      resolveProfileKey pf = rawPos pf) ∧
    (∀ p : String, positionProfiles.lookup p = none →
      getMetricsForProfile p = ([], [], [])) := by
  refine ⟨?_, ?_, ?_⟩
  · intro pf h
    rw [resolveProfileKey, if_neg (by simp [h])]
  · intro pf ks h
    rw [resolveProfileKey, if_pos (by simp [h])]
  · intro p h
    rw [getMetricsForProfile]
    simp [h]

theorem c8_profile_fallback_witness :
    positionProfiles.lookup (rawPos (some "LB")) = none ∧
    resolveProfileKey (some "LB") = "DMCM" :=
  ⟨by decide, c8_profile_fallback.1 (some "LB") (by decide)⟩

/-! ### Streamlit chart averages -/

/-- `float(player_data.get(k, 0))` for the three category fields of the
streamlit chart (`scouting_streamlit.py` lines 1077-1079): the stored
column value when the key is present (`none` models a stored `NaN`),
`0` when the key is absent from the row. -/
def chartCatAvg (row : NumRow) (k : String) : Option ℚ :=
  match row.lookup k with
  | some v => v
  | none => some 0

/-- `np.mean([p, a, d])` on three plain floats: `NaN` as soon as one of
them is `NaN`. -/
def npMean3 (p a d : Option ℚ) : Option ℚ :=
  match p, a, d with
  | some x, some y, some z => some ((x + y + z) / 3)
  | _, _, _ => none

/-- Line 1080 of `scouting_streamlit.py`:
`float(player_data.get("total", np.mean([physical_avg, attack_avg,
defense_avg])))` — the stored `total` whenever that key is present in
the row, otherwise the mean of the three (0-defaulted) stored category
fields. -/
def chartOverallAvg (row : NumRow) : Option ℚ :=
  match row.lookup "total" with
  | some v => v
  | none => npMean3 (chartCatAvg row "physical") (chartCatAvg row "attacking")
      (chartCatAvg row "defending")

/-- The overall-score precedence that claim C6 asserts, stated from the
spec's words (section 4.3 step 4): recomputation from the raw metric
values present in the row is authoritative, and a stored `total`
aggregate is used only as a fallback when no raw metric value is
available at all. -/
def specAuthoritativeOverall (row : NumRow) : Option ℚ :=
  if ((PHYSICAL_METRICS ++ ATTACK_METRICS ++ DEFENSE_METRICS).filterMap
      (fun m => getVal row m)).isEmpty then
    getVal row "total"
  else (loadScores 0 row).total

/-- The C6 counterexample row: a stored `total` of 10 together with every
raw metric present at 50 (and stored category fields of 50). -/
def c6Row : NumRow :=
  ("total", some 10) :: ("physical", some 50) :: ("attacking", some 50) ::
    ("defending", some 50) ::
    (PHYSICAL_METRICS ++ ATTACK_METRICS ++ DEFENSE_METRICS).map
      (fun m => (m, some 50))

/-- Claim C6 (counterexample): on `c6Row` every raw metric value is
available, yet the streamlit chart displays the stored aggregate
`total = 10` and not the authoritative recomputation (50): the stored
aggregate takes precedence whenever the `total` field is present, not
only when no raw metrics are available. -/
theorem c6_stored_total_cex :
    chartOverallAvg c6Row = some 10 ∧
    specAuthoritativeOverall c6Row = some 50 ∧
    chartOverallAvg c6Row ≠ specAuthoritativeOverall c6Row := by
  have h1 : chartOverallAvg c6Row = some 10 := rfl
  have hphys : categoryScore c6Row PHYSICAL_METRICS = some 50 := by
    rw [categoryScore, show PHYSICAL_METRICS.filterMap
      (fun m => getVal c6Row m) = [50, 50, 50, 50] from by decide]
    norm_num [meanOpt]
  have hatt : categoryScore c6Row ATTACK_METRICS = some 50 := by
    rw [categoryScore, show ATTACK_METRICS.filterMap
      (fun m => getVal c6Row m) = [50, 50, 50, 50, 50, 50] from by decide]
    norm_num [meanOpt]
  have hdef : categoryScore c6Row DEFENSE_METRICS = some 50 := by
    rw [categoryScore, show DEFENSE_METRICS.filterMap
      (fun m => getVal c6Row m) = [50, 50, 50, 50, 50] from by decide]
    norm_num [meanOpt]
  have h2 : specAuthoritativeOverall c6Row = some 50 := by
    rw [specAuthoritativeOverall,
      show ((PHYSICAL_METRICS ++ ATTACK_METRICS ++ DEFENSE_METRICS).filterMap
        (fun m => getVal c6Row m)).isEmpty = false from by decide]
    simp only [Bool.false_eq_true, if_false]
    show overallOf (categoryScore c6Row PHYSICAL_METRICS)
      (categoryScore c6Row ATTACK_METRICS)
      (categoryScore c6Row DEFENSE_METRICS) = some 50
    rw [hphys, hatt, hdef, overallOf,
      show ([some (50 : ℚ), some 50, some 50].filterMap id)
        = [50, 50, 50] from by decide]
    norm_num [meanOpt]
  refine ⟨h1, h2, ?_⟩
  rw [h1, h2]
  intro h
  exact absurd (Option.some_inj.mp h) (by norm_num)

/-- Claim C6 (amended): the two variants invert the spec's precedence.
The Bram loader always recomputes the aggregate columns from the raw
metric cells and never consults a stored `total` (prepending a stored
`total` cell to any row leaves its scores unchanged); the streamlit
chart treats the stored aggregate as authoritative — it displays the
stored `total` whenever that field is present and recomputes (from the
stored category fields, not from raw metrics) only when it is absent. -/
theorem c6_stored_total_precedence :
    (∀ (pid : ℕ) (v : Option ℚ) (row : NumRow),
      loadScores pid (("total", v) :: row) = loadScores pid row) ∧
    (∀ (row : NumRow) (v : Option ℚ), row.lookup "total" = some v →
      chartOverallAvg row = v) ∧
    (∀ row : NumRow, row.lookup "total" = none →
      chartOverallAvg row = npMean3 (chartCatAvg row "physical")
        (chartCatAvg row "attacking") (chartCatAvg row "defending")) := by
  refine ⟨?_, ?_, ?_⟩
  · intro pid v row
    have hP : ∀ m ∈ PHYSICAL_METRICS,
        getVal (("total", v) :: row) m = getVal row m := by
      intro m hm
      rw [getVal_cons, if_neg (fun h => absurd (h ▸ hm) (by decide))]
    have hA : ∀ m ∈ ATTACK_METRICS,
        getVal (("total", v) :: row) m = getVal row m := by
      intro m hm
      rw [getVal_cons, if_neg (fun h => absurd (h ▸ hm) (by decide))]
    have hD : ∀ m ∈ DEFENSE_METRICS,
        getVal (("total", v) :: row) m = getVal row m := by
      intro m hm
      rw [getVal_cons, if_neg (fun h => absurd (h ▸ hm) (by decide))]
    simp only [loadScores, categoryScore]
    rw [filterMap_getVal_congr _ _ PHYSICAL_METRICS hP,
      filterMap_getVal_congr _ _ ATTACK_METRICS hA,
      filterMap_getVal_congr _ _ DEFENSE_METRICS hD]
  · intro row v h
    rw [chartOverallAvg, h]
  · intro row h
    rw [chartOverallAvg, h]

theorem c6_stored_total_precedence_witness :
    (([("total", some 10)] : NumRow).lookup "total" = some (some 10)) ∧
    chartOverallAvg [("total", some 10)] = some 10 :=
  ⟨rfl, c6_stored_total_precedence.2.1 [("total", some 10)] (some 10) rfl⟩

/-! ### Bram chart averages -/

/-- Line 516 of `scouting_app_Bram.py`:
`plot_columns = PHYSICAL_METRICS + ATTACK_METRICS + DEFENSE_METRICS`. -/
def plotColumns : List String :=
  PHYSICAL_METRICS ++ ATTACK_METRICS ++ DEFENSE_METRICS

/-- Line 519 of `scouting_app_Bram.py`:
`[player_data[col] if col in player_data.index else 0 for col in
plot_columns]` — `0` is substituted for a metric absent from the row; a
present `NaN` cell stays `NaN`. -/
def bramPercentileValues (row : NumRow) : List (Option ℚ) :=
  plotColumns.map (fun c => match row.lookup c with
    | some v => v
    | none => some 0)

/-- `np.mean` of a plain Python float list: `NaN` as soon as one entry
is `NaN`, and on the empty list. -/
def npMean (xs : List (Option ℚ)) : Option ℚ :=
  if xs.isEmpty then none
  else if xs.all (fun o => o.isSome) then
    some ((xs.filterMap id).sum / xs.length)
  else none

/-- Line 543: `physical_avg = np.mean(percentile_values[0:len(PHYSICAL_METRICS)])`. -/
def bramPhysicalAvg (row : NumRow) : Option ℚ :=
  npMean ((bramPercentileValues row).take PHYSICAL_METRICS.length)

/-- Line 544: the attack slice of the plotting values. -/
def bramAttackAvg (row : NumRow) : Option ℚ :=
  npMean (((bramPercentileValues row).drop PHYSICAL_METRICS.length).take
    ATTACK_METRICS.length)

/-- Line 545: the defense slice of the plotting values. -/
def bramDefenseAvg (row : NumRow) : Option ℚ :=
  npMean ((bramPercentileValues row).drop
    (PHYSICAL_METRICS.length + ATTACK_METRICS.length))

/-- Line 570 of `scouting_app_Bram.py`:
`overall_avg = np.mean([physical_avg, attack_avg, defense_avg])`, which
the in-code comment says "should match 'total' column". -/
def bramOverallAvg (row : NumRow) : Option ℚ :=
  npMean3 (bramPhysicalAvg row) (bramAttackAvg row) (bramDefenseAvg row)

theorem npMean_map_some (xs : List ℚ) (hne : xs ≠ []) :
    npMean (xs.map some) = some (xs.sum / xs.length) := by
  rw [npMean, if_neg (by simp [List.isEmpty_iff, hne]), if_pos (by simp)]
  simp [List.filterMap_map]

/-- The C7 failing input: every metric present at 80 except the first
physical metric (`total_distance_p90_percentile`), which is absent from
the row. -/
def c7Row : NumRow :=
  (PHYSICAL_METRICS.tail ++ ATTACK_METRICS ++ DEFENSE_METRICS).map
    (fun m => (m, some 80))

/-- Claim C7: the claim is right and `create_polarized_bar_chart` of
`scouting_app_Bram.py` is wrong — the chart's displayed averages are
recomputed with `np.mean` from the 0-substituted plotting values, not
taken from the score aggregator.  On `c7Row` the aggregator's physical
score is 80 (the missing metric is skipped) but the chart shows 60 (the
missing metric counted as 0), and the chart's overall average 220/3
differs from the `total` column 80, contradicting the code's own comment
at line 569 that the overall average "should match 'total' column". -/
theorem c7_chart_avg_recomputed_bug :
    bramPhysicalAvg c7Row = some 60 ∧
    (loadScores 0 c7Row).physical = some 80 ∧
    bramOverallAvg c7Row = some (220 / 3) ∧
    (loadScores 0 c7Row).total = some 80 ∧
    bramPhysicalAvg c7Row ≠ (loadScores 0 c7Row).physical ∧
    bramOverallAvg c7Row ≠ (loadScores 0 c7Row).total := by
  have h1 : bramPhysicalAvg c7Row = some 60 := by
    rw [bramPhysicalAvg, show (bramPercentileValues c7Row).take
        PHYSICAL_METRICS.length = List.map some [0, 80, 80, 80] from by decide,
      npMean_map_some _ (by decide)]
    norm_num
  have h2 : bramAttackAvg c7Row = some 80 := by
    rw [bramAttackAvg, show ((bramPercentileValues c7Row).drop
        PHYSICAL_METRICS.length).take ATTACK_METRICS.length
        = List.map some [80, 80, 80, 80, 80, 80] from by decide,
      npMean_map_some _ (by decide)]
    norm_num
  have h3 : bramDefenseAvg c7Row = some 80 := by
    rw [bramDefenseAvg, show (bramPercentileValues c7Row).drop
        (PHYSICAL_METRICS.length + ATTACK_METRICS.length)
        = List.map some [80, 80, 80, 80, 80] from by decide,
      npMean_map_some _ (by decide)]
    norm_num
  have hphys : categoryScore c7Row PHYSICAL_METRICS = some 80 := by
    rw [categoryScore, show PHYSICAL_METRICS.filterMap
      (fun m => getVal c7Row m) = [80, 80, 80] from by decide]
    norm_num [meanOpt]
  have hatt : categoryScore c7Row ATTACK_METRICS = some 80 := by
    rw [categoryScore, show ATTACK_METRICS.filterMap
      (fun m => getVal c7Row m) = [80, 80, 80, 80, 80, 80] from by decide]
    norm_num [meanOpt]
  have hdef : categoryScore c7Row DEFENSE_METRICS = some 80 := by
    rw [categoryScore, show DEFENSE_METRICS.filterMap
      (fun m => getVal c7Row m) = [80, 80, 80, 80, 80] from by decide]
    norm_num [meanOpt]
  have h4 : (loadScores 0 c7Row).total = some 80 := by
    show overallOf (categoryScore c7Row PHYSICAL_METRICS)
      (categoryScore c7Row ATTACK_METRICS)
      (categoryScore c7Row DEFENSE_METRICS) = some 80
    rw [hphys, hatt, hdef, overallOf,
      show ([some (80 : ℚ), some 80, some 80].filterMap id)
        = [80, 80, 80] from by decide]
    norm_num [meanOpt]
  have h5 : bramOverallAvg c7Row = some (220 / 3) := by
    rw [bramOverallAvg, h1, h2, h3, npMean3]
    norm_num
  have hP2 : (loadScores 0 c7Row).physical = some 80 := hphys
  refine ⟨h1, hP2, h5, h4, ?_, ?_⟩
  · rw [h1, hP2]
    intro h
    exact absurd (Option.some_inj.mp h) (by norm_num)
  · rw [h5, h4]
    intro h
    exact absurd (Option.some_inj.mp h) (by norm_num)

/-! ### Colour gradient -/

/-- An RGB colour with integer channels. -/
structure RGB where
  r : ℤ
  g : ℤ
  b : ℤ
deriving DecidableEq

/-- Python `int(...)` on a float: truncation toward zero. -/
def pyInt (q : ℚ) : ℤ := if 0 ≤ q then ⌊q⌋ else ⌈q⌉

/-- One channel of `lighten_color(hex_color, amount=0.6)`
(`scouting_app_Bram.py` lines 487-494): `int(c + (255 - c) * 0.6)`. -/
def lightenChannel (c : ℤ) : ℤ :=
  pyInt ((c : ℚ) + (255 - (c : ℚ)) * (3 / 5))

/-- `lighten_color` applied to the three channels. -/
def lightenColor (col : RGB) : RGB :=
  ⟨lightenChannel col.r, lightenChannel col.g, lightenChannel col.b⟩

/-- `max(0, min(1, x))`: line 500 of `scouting_app_Bram.py` clamps the
normalised score to [0, 1] before interpolating (and line 1086 of
`scouting_streamlit.py` likewise). -/
def clamp01 (q : ℚ) : ℚ := max 0 (min 1 q)

/-- One channel of the interpolation of `scouting_app_Bram.py` lines
509-511: `int(light + (dark - light) * normalized)`. -/
def gradChannel (light dark : ℤ) (t : ℚ) : ℤ :=
  pyInt ((light : ℚ) + ((dark : ℚ) - (light : ℚ)) * t)

/-- `get_gradient_color(base_color, score)` (`scouting_app_Bram.py`
lines 496-513, with the default anchors `min_score=0`, `max_score=100`
used by every call site): normalise the score as
`(score - 0) / (100 - 0)`, clamp to [0, 1], build the light tint with
`lighten_color(base, 0.6)`, and interpolate each channel from the light
tint (score 0) to the base colour (score 100). -/
def getGradientColor (base : RGB) (score : ℚ) : RGB :=
  let t := clamp01 ((score - 0) / (100 - 0))
  let light := lightenColor base
  ⟨gradChannel light.r base.r t, gradChannel light.g base.g t,
   gradChannel light.b base.b t⟩

/-- One channel of `get_color` (`scouting_streamlit.py` line 1088):
`int(255 - (255 - base) * norm)`. -/
def getColorChannel (c : ℤ) (norm : ℚ) : ℤ :=
  pyInt (255 - (255 - (c : ℚ)) * norm)

/-- `get_color(score, base_hex)` (`scouting_streamlit.py` lines
1085-1088): `norm = max(0, min(1, score / 100))`, then each channel is
interpolated from white (score 0) to the base colour (score 100). -/
def getColor (score : ℚ) (base : RGB) : RGB :=
  let norm := clamp01 (score / 100)
  ⟨getColorChannel base.r norm, getColorChannel base.g norm,
   getColorChannel base.b norm⟩

/-- Bram's category base colours (`scouting_app_Bram.py` lines 482-484
and 528-533): 1 ↦ green `#3E8C5E`, 2 ↦ red `#E83F2A`,
3 ↦ yellow `#F2B533`. -/
def bramCategoryColor (cid : ℕ) : RGB :=
  if cid = 1 then ⟨62, 140, 94⟩
  else if cid = 2 then ⟨232, 63, 42⟩
  else ⟨242, 181, 51⟩

/-- Lines 536-540 of `scouting_app_Bram.py`: every bar's colour comes
from the one shared `get_gradient_color`, applied to the bar's category
base colour and its own score. -/
def bramBarColor (cid : ℕ) (score : ℚ) : RGB :=
  getGradientColor (bramCategoryColor cid) score

/-! ### Helper lemmas on the gradient -/

theorem pyInt_intCast (n : ℤ) : pyInt (n : ℚ) = n := by
  rw [pyInt]
  split
  · exact Int.floor_intCast n
  · exact Int.ceil_intCast n

theorem pyInt_mono {q q2 : ℚ} (h : q ≤ q2) : pyInt q ≤ pyInt q2 := by
  rw [pyInt, pyInt]
  split <;> split
  · exact Int.floor_le_floor h
  · exact absurd (by linarith : (0 : ℚ) ≤ q2) (by assumption)
  · have hq : q < 0 := not_le.mp (by assumption)
    have hq2 : (0 : ℚ) ≤ q2 := by assumption
    have h1 : ⌈q⌉ ≤ (0 : ℤ) := Int.ceil_le.mpr (by push_cast; linarith)
    have h2 : (0 : ℤ) ≤ ⌊q2⌋ := Int.le_floor.mpr (by push_cast; linarith)
    exact le_trans h1 h2
  · exact Int.ceil_le_ceil h

theorem lightenChannel_ge {c : ℤ} (h255 : c ≤ 255) :
    c ≤ lightenChannel c := by
  have hle : (c : ℚ) ≤ (c : ℚ) + (255 - (c : ℚ)) * (3 / 5) := by
    have h2 : ((c : ℚ)) ≤ 255 := by exact_mod_cast h255
    nlinarith
  calc c = pyInt (c : ℚ) := (pyInt_intCast c).symm
    _ ≤ lightenChannel c := pyInt_mono hle

theorem gradChannel_zero (light dark : ℤ) : gradChannel light dark 0 = light := by
  rw [gradChannel, mul_zero, add_zero, pyInt_intCast]

theorem gradChannel_one (light dark : ℤ) : gradChannel light dark 1 = dark := by
  rw [gradChannel, show (light : ℚ) + ((dark : ℚ) - light) * 1 = (dark : ℚ) by ring,
    pyInt_intCast]

theorem gradChannel_antitone {light dark : ℤ} (hld : dark ≤ light)
    {t1 t2 : ℚ} (h : t1 ≤ t2) :
    gradChannel light dark t2 ≤ gradChannel light dark t1 := by
  apply pyInt_mono
  have hd : ((dark : ℚ) - light) ≤ 0 := by
    have : (dark : ℚ) ≤ light := by exact_mod_cast hld
    linarith
  nlinarith

theorem getColorChannel_zero (c : ℤ) : getColorChannel c 0 = 255 := by
  rw [getColorChannel, mul_zero, sub_zero,
    show (255 : ℚ) = ((255 : ℤ) : ℚ) by norm_num, pyInt_intCast]

theorem getColorChannel_one (c : ℤ) : getColorChannel c 1 = c := by
  rw [getColorChannel, show (255 : ℚ) - (255 - (c : ℚ)) * 1 = (c : ℚ) by ring,
    pyInt_intCast]

theorem getColorChannel_antitone {c : ℤ} (h255 : c ≤ 255) {t1 t2 : ℚ}
    (h : t1 ≤ t2) : getColorChannel c t2 ≤ getColorChannel c t1 := by
  apply pyInt_mono
  have hc : (0 : ℚ) ≤ 255 - (c : ℚ) := by
    have : (c : ℚ) ≤ 255 := by exact_mod_cast h255
    linarith
  nlinarith

theorem clamp01_mono {q1 q2 : ℚ} (h : q1 ≤ q2) : clamp01 q1 ≤ clamp01 q2 :=
  max_le_max le_rfl (min_le_min le_rfl h)

theorem clamp01_div100_eq (s : ℚ) :
    clamp01 (min 100 (max 0 s) / 100) = clamp01 (s / 100) := by
  unfold clamp01
  rcases le_total s 0 with h | h
  · rw [max_eq_left h, show min (100 : ℚ) 0 = 0 by norm_num, zero_div]
    have hs : s / 100 ≤ 0 := by
      have := (div_le_div_right (by norm_num : (0 : ℚ) < 100)).mpr h
      rwa [zero_div] at this
    rw [min_eq_right (le_trans hs (by norm_num)), max_eq_left hs]
    norm_num
  · rw [max_eq_right h]
    rcases le_total s 100 with h2 | h2
    · rw [min_eq_right h2]
    · rw [min_eq_left h2]
      have hs : (1 : ℚ) ≤ s / 100 := by
        rw [le_div_iff (by norm_num : (0 : ℚ) < 100)]
        linarith
      rw [min_eq_left hs, show (100 : ℚ) / 100 = 1 by norm_num]
      norm_num

/-- Claim C9: both gradient functions first clamp the normalised score
to [0, 1] (the colour at any score equals the colour at the score
clamped to [0, 100]); at score 0 each returns its fixed light anchor —
`lighten_color(base, 0.6)` for the Bram variant, white for the
streamlit variant; at score 100 each returns the base colour exactly;
and every RGB channel is monotone (non-increasing from the light anchor
towards the base colour) as the score increases, for channel values in
[0, 255].  One shared function serves every category, only the base
colour differing. -/
theorem c9_gradient_properties (base : RGB) (s s1 s2 : ℚ)
    (hr : base.r ≤ 255) (hg : base.g ≤ 255) (hb : base.b ≤ 255)
    (h12 : s1 ≤ s2) :
    getGradientColor base s = getGradientColor base (min 100 (max 0 s)) ∧
    getGradientColor base 0 = lightenColor base ∧
    getGradientColor base 100 = base ∧
    ((getGradientColor base s2).r ≤ (getGradientColor base s1).r ∧
     (getGradientColor base s2).g ≤ (getGradientColor base s1).g ∧
     (getGradientColor base s2).b ≤ (getGradientColor base s1).b) ∧
    getColor s base = getColor (min 100 (max 0 s)) base ∧
    getColor 0 base = ⟨255, 255, 255⟩ ∧
    getColor 100 base = base ∧
    ((getColor s2 base).r ≤ (getColor s1 base).r ∧
     (getColor s2 base).g ≤ (getColor s1 base).g ∧
     (getColor s2 base).b ≤ (getColor s1 base).b) ∧
    (∀ (cid : ℕ) (sc : ℚ),
      bramBarColor cid sc = getGradientColor (bramCategoryColor cid) sc) := by
  have hclamp : ∀ u v : ℚ, u ≤ v →
      clamp01 ((u - 0) / (100 - 0)) ≤ clamp01 ((v - 0) / (100 - 0)) := by
    intro u v huv
    apply clamp01_mono
    exact (div_le_div_right (by norm_num : (0 : ℚ) < 100 - 0)).mpr (by linarith)
  refine ⟨?_, ?_, ?_, ?_, ?_, ?_, ?_, ?_, fun cid sc => rfl⟩
  · have ht : clamp01 ((min 100 (max 0 s) - 0) / (100 - 0))
        = clamp01 ((s - 0) / (100 - 0)) := by
      simp only [sub_zero]
      exact clamp01_div100_eq s
    simp only [getGradientColor, ht]
  · simp only [getGradientColor,
      show clamp01 ((0 - 0 : ℚ) / (100 - 0)) = 0 by norm_num [clamp01],
      gradChannel_zero]
  · simp only [getGradientColor,
      show clamp01 ((100 - 0 : ℚ) / (100 - 0)) = 1 by norm_num [clamp01],
      gradChannel_one]
  · refine ⟨?_, ?_, ?_⟩ <;>
      exact gradChannel_antitone (lightenChannel_ge (by assumption))
        (hclamp s1 s2 h12)
  · have ht : clamp01 (min 100 (max 0 s) / 100) = clamp01 (s / 100) :=
      clamp01_div100_eq s
    simp only [getColor, ht]
  · simp only [getColor,
      show clamp01 ((0 : ℚ) / 100) = 0 by norm_num [clamp01],
      getColorChannel_zero]
  · simp only [getColor,
      show clamp01 ((100 : ℚ) / 100) = 1 by norm_num [clamp01],
      getColorChannel_one]
  · have hmono : clamp01 (s1 / 100) ≤ clamp01 (s2 / 100) := by
      apply clamp01_mono
      exact (div_le_div_right (by norm_num : (0 : ℚ) < 100)).mpr h12
    exact ⟨getColorChannel_antitone hr hmono, getColorChannel_antitone hg hmono,
      getColorChannel_antitone hb hmono⟩

theorem c9_gradient_properties_witness :
    ((62 : ℤ) ≤ 255) ∧ ((140 : ℤ) ≤ 255) ∧ ((94 : ℤ) ≤ 255) ∧
    ((30 : ℚ) ≤ 70) ∧
    getGradientColor ⟨62, 140, 94⟩ 100 = ⟨62, 140, 94⟩ :=
  ⟨by norm_num, by norm_num, by norm_num, by norm_num,
   (c9_gradient_properties ⟨62, 140, 94⟩ 120 30 70 (by norm_num) (by norm_num)
      (by norm_num) (by norm_num)).2.2.1⟩

end Scouting
